import Mathlib

/-!
Verification of the js-clip cross-modal search core (src/script.js).

The embedding providers (CLIP text/vision models) and the cosine-similarity
primitive `cos_sim` are external collaborators; the spec fixes them as
assumed-correct external functions, so they appear here as parameters
(`embedText`, `embedImage` of type `String → Emb`, and
`cos_sim : Emb → Emb → ℚ`).  Embedding vectors carry rational entries:
JavaScript floating point is not modelled, and no claim here depends on
the numeric values produced by the providers.

`Array.prototype.sort` with the comparator
`(a, b) => b.similarity - a.similarity` is required by the ECMAScript
specification to produce a stable, comparator-sorted permutation; it is
modelled by the stable descending insertion sort `sortBySimilarityDesc`.
`Array.prototype.slice(0, end)` with a possibly negative `end` is modelled
by `jsSlice` (negative `end` counts from the end of the array, clamped at 0).
-/

namespace JsClip

/-- An embedding vector: the `.data` of a transformers.js tensor. -/
abbrev Emb : Type := List ℚ

/-- A catalog item as supplied to `processSearchableItems`:
optional `text` and optional `image` URL (absent or `undefined` ↦ `none`). -/
structure CatalogItem where
  text : Option String
  image : Option String
deriving DecidableEq, Repr

/-- An embedded item as built by `processSearchableItems`:
optional `text_embed`, optional `image_embed`, and the `type` tag string. -/
structure EmbeddedItem where
  text_embed : Option Emb
  image_embed : Option Emb
  type : String
deriving DecidableEq, Repr

/-- An element of the array built inside `findBestMatches` by
`similarities.map((similarity, index) => ({ index, similarity }))`. -/
structure Match where
  index : Nat
  similarity : ℚ
deriving DecidableEq, Repr

/-- JavaScript truthiness of an optional string field: `undefined`/absent and
the empty string are falsy, every other string is truthy. -/
def truthy : Option String → Bool
  | none => false
  | some s => decide (s ≠ "")

/-- The async arrow function passed to `items.map` in `processSearchableItems`
(src/script.js lines 51-68).  `embedText` and `embedImage` stand for
`getTextEmbedding`/`getImageEmbedding` applied to the loaded models.
An item for which no branch of the if/else-if chain fires produces
JavaScript `undefined`, modelled as `none`. -/
def embedItem (embedText embedImage : String → Emb) (item : CatalogItem) :
    Option EmbeddedItem :=
  if truthy item.text && truthy item.image then
    some { text_embed := some (embedText (item.text.getD (""))),
           image_embed := some (embedImage (item.image.getD (""))),
           type := "both" }
  else if truthy item.text then
    some { text_embed := some (embedText (item.text.getD (""))),
           image_embed := none,
           type := "text" }
  else if truthy item.image then
    some { text_embed := none,
           image_embed := some (embedImage (item.image.getD (""))),
           type := "image" }
  else
    none

/-- `processSearchableItems` (src/script.js lines 50-70): embeds every catalog
item.  `Promise.all(items.map(...))` resolves index-stably, so it is the map
of `embedItem` over the items. -/
def processSearchableItems (embedText embedImage : String → Emb)
    (items : List CatalogItem) : List (Option EmbeddedItem) :=
  items.map (embedItem embedText embedImage)

/-- The arrow function passed to `item_embeds.map` in `findBestMatches`
(src/script.js lines 73-84): the similarity score of one embedded item
against the query.  Accessing `.data` of an absent tensor (undefined-field
access, outside the function's defined domain) is modelled by `Option.getD`
with the empty vector. -/
def itemSimilarity (cos_sim : Emb → Emb → ℚ) (query_embed : Emb)
    (item : EmbeddedItem) : ℚ :=
  if item.type = "both" then
    max (cos_sim query_embed (item.text_embed.getD []))
        (cos_sim query_embed (item.image_embed.getD []))
  else if item.type = "text" then
    cos_sim query_embed (item.text_embed.getD [])
  else
    cos_sim query_embed (item.image_embed.getD [])

/-- `similarities.map((similarity, index) => ({ index, similarity }))`
(src/script.js line 87), with `i` the index of the first element. -/
def withIndices (i : Nat) : List ℚ → List Match
  | [] => []
  | s :: ss => { index := i, similarity := s } :: withIndices (i + 1) ss

/-- Stable insertion (descending by `similarity`) of one match into an
already-sorted run: the new element goes in front of the first strictly
smaller element, after all elements with greater-or-equal similarity. -/
def insertDesc (x : Match) : List Match → List Match
  | [] => [x]
  | y :: ys =>
    if y.similarity ≤ x.similarity then x :: y :: ys
    else y :: insertDesc x ys

/-- `.sort((a, b) => b.similarity - a.similarity)` (src/script.js line 88):
the stable descending-by-similarity sort mandated for this comparator by the
ECMAScript specification, realised as a stable insertion sort. -/
def sortBySimilarityDesc : List Match → List Match
  | [] => []
  | x :: xs => insertDesc x (sortBySimilarityDesc xs)

/-- The effective end index of `Array.prototype.slice(0, stop)` on an array
of length `len`: a negative `stop` counts from the end (clamped at 0), a
non-negative one is clamped at `len`. -/
def jsSliceEnd (len : Nat) (stop : Int) : Nat :=
  if stop < 0 then ((len : Int) + stop).toNat else min stop.toNat len

/-- `.slice(0, stop)` (src/script.js line 89), including the JavaScript
behaviour for `stop ≤ 0`. -/
def jsSlice (l : List Match) (stop : Int) : List Match :=
  l.take (jsSliceEnd l.length stop)

/-- `findBestMatches` (src/script.js lines 72-90): score every embedded item
against the query, pair each score with its catalog index, sort descending
by score (stable), and keep the first `top_k` entries via `slice`. -/
def findBestMatches (cos_sim : Emb → Emb → ℚ) (query_embed : Emb)
    (item_embeds : List EmbeddedItem) (top_k : Int) : List Match :=
  let similarities := item_embeds.map (itemSimilarity cos_sim query_embed)
  jsSlice (sortBySimilarityDesc (withIndices 0 similarities)) top_k

/-- `findBestMatches` called without its third argument uses the default
parameter `top_k = 3` (src/script.js line 72). -/
def findBestMatchesDefault (cos_sim : Emb → Emb → ℚ) (query_embed : Emb)
    (item_embeds : List EmbeddedItem) : List Match :=
  findBestMatches cos_sim query_embed item_embeds 3

/-- The mutable data visible to `findBestMatches`: the query tensor and the
embedded-catalog array passed in by reference. -/
structure SearchState where
  query_embed : Emb
  item_embeds : List EmbeddedItem
deriving DecidableEq, Repr

/-- `findBestMatches` as a state transformer over its by-reference inputs.
Every step of the body is read-only on the store: `.map` allocates fresh
arrays, `.sort` mutates only the fresh array produced by the preceding
`.map`, and `.slice` allocates the result — so the store comes back
unchanged. -/
def findBestMatchesRun (cos_sim : Emb → Emb → ℚ) (s : SearchState)
    (top_k : Int) : List Match × SearchState :=
  (findBestMatches cos_sim s.query_embed s.item_embeds top_k, s)

/-- The strict order in which `findBestMatches` emits matches: descending by
similarity, and ascending by original catalog index among equal similarities. -/
def MatchOrder (a b : Match) : Prop :=
  b.similarity ≤ a.similarity ∧ (a.similarity ≤ b.similarity → a.index < b.index)

theorem length_insertDesc (x : Match) (l : List Match) :
    (insertDesc x l).length = l.length + 1 := by
  induction l with
  | nil => rfl
  | cons y ys ih =>
    by_cases hle : y.similarity ≤ x.similarity
    · simp [insertDesc, if_pos hle]
    · simp [insertDesc, if_neg hle, ih]

theorem mem_insertDesc {z x : Match} {l : List Match} (h : z ∈ insertDesc x l) :
    z = x ∨ z ∈ l := by
  induction l with
  | nil => simpa [insertDesc] using h
  | cons y ys ih =>
    by_cases hle : y.similarity ≤ x.similarity
    · rw [insertDesc, if_pos hle] at h
      simpa [List.mem_cons] using List.mem_cons.mp h
    · rw [insertDesc, if_neg hle] at h
      rcases List.mem_cons.mp h with h2 | h2
      · exact Or.inr (List.mem_cons.mpr (Or.inl h2))
      · rcases ih h2 with h3 | h3
        · exact Or.inl h3
        · exact Or.inr (List.mem_cons.mpr (Or.inr h3))

theorem length_sortBySimilarityDesc (l : List Match) :
    (sortBySimilarityDesc l).length = l.length := by
  induction l with
  | nil => rfl
  | cons x xs ih => rw [sortBySimilarityDesc, length_insertDesc, ih, List.length_cons]

theorem mem_sortBySimilarityDesc {z : Match} {l : List Match}
    (h : z ∈ sortBySimilarityDesc l) : z ∈ l := by
  induction l with
  | nil => simp [sortBySimilarityDesc] at h
  | cons x xs ih =>
    rw [sortBySimilarityDesc] at h
    rcases mem_insertDesc h with h2 | h2
    · exact h2 ▸ List.mem_cons_self x xs
    · exact List.mem_cons.mpr (Or.inr (ih h2))

theorem pairwise_insertDesc {x : Match} {l : List Match}
    (hl : l.Pairwise MatchOrder) (hx : ∀ y ∈ l, x.index < y.index) :
    (insertDesc x l).Pairwise MatchOrder := by
  induction l with
  | nil => simp [insertDesc]
  | cons y ys ih =>
    rcases List.pairwise_cons.mp hl with ⟨hy, hys⟩
    by_cases hle : y.similarity ≤ x.similarity
    · rw [insertDesc, if_pos hle]
      refine List.pairwise_cons.mpr ⟨?_, hl⟩
      intro z hz
      rcases List.mem_cons.mp hz with rfl | hz2
      · exact ⟨hle, fun _ => hx z (List.mem_cons_self z ys)⟩
      · exact ⟨le_trans (hy z hz2).1 hle,
          fun _ => hx z (List.mem_cons.mpr (Or.inr hz2))⟩
    · rw [insertDesc, if_neg hle]
      have hxlt : x.similarity < y.similarity := not_le.mp hle
      refine List.pairwise_cons.mpr
        ⟨?_, ih hys (fun z hz => hx z (List.mem_cons.mpr (Or.inr hz)))⟩
      intro z hz
      rcases mem_insertDesc hz with rfl | hz2
      · exact ⟨le_of_lt hxlt, fun hcon => absurd hcon (not_le.mpr hxlt)⟩
      · exact hy z hz2

theorem pairwise_sortBySimilarityDesc {l : List Match}
    (hl : l.Pairwise fun a b => a.index < b.index) :
    (sortBySimilarityDesc l).Pairwise MatchOrder := by
  induction l with
  | nil => simp [sortBySimilarityDesc]
  | cons x xs ih =>
    rcases List.pairwise_cons.mp hl with ⟨hx, hxs⟩
    rw [sortBySimilarityDesc]
    exact pairwise_insertDesc (ih hxs)
      (fun y hy => hx y (mem_sortBySimilarityDesc hy))

theorem length_withIndices (i : Nat) (l : List ℚ) :
    (withIndices i l).length = l.length := by
  induction l generalizing i with
  | nil => rfl
  | cons s ss ih => simp [withIndices, ih]

theorem le_index_of_mem_withIndices {y : Match} {i : Nat} {l : List ℚ}
    (h : y ∈ withIndices i l) : i ≤ y.index := by
  induction l generalizing i with
  | nil => simp [withIndices] at h
  | cons s ss ih =>
    rw [withIndices] at h
    rcases List.mem_cons.mp h with rfl | h2
    · exact le_refl _
    · exact le_trans (Nat.le_succ i) (ih h2)

theorem pairwise_withIndices (i : Nat) (l : List ℚ) :
    (withIndices i l).Pairwise fun a b => a.index < b.index := by
  induction l generalizing i with
  | nil => simp [withIndices]
  | cons s ss ih =>
    rw [withIndices]
    refine List.pairwise_cons.mpr ⟨?_, ih (i + 1)⟩
    intro y hy
    exact lt_of_lt_of_le (Nat.lt_succ_self i) (le_index_of_mem_withIndices hy)

theorem jsSliceEnd_le (len : Nat) (stop : Int) : jsSliceEnd len stop ≤ len := by
  unfold jsSliceEnd
  split
  · omega
  · exact min_le_right _ _

theorem length_jsSlice (l : List Match) (stop : Int) :
    (jsSlice l stop).length = jsSliceEnd l.length stop := by
  rw [jsSlice, List.length_take]
  exact min_eq_left (jsSliceEnd_le _ _)

theorem pairwise_jsSlice {l : List Match} (h : l.Pairwise MatchOrder)
    (stop : Int) : (jsSlice l stop).Pairwise MatchOrder :=
  List.Pairwise.sublist (List.take_sublist _ _) h

theorem pairwise_findBestMatches (cos_sim : Emb → Emb → ℚ) (query_embed : Emb)
    (item_embeds : List EmbeddedItem) (top_k : Int) :
    (findBestMatches cos_sim query_embed item_embeds top_k).Pairwise MatchOrder := by
  simp only [findBestMatches]
  exact pairwise_jsSlice (pairwise_sortBySimilarityDesc (pairwise_withIndices 0 _)) top_k

theorem length_findBestMatches (cos_sim : Emb → Emb → ℚ) (query_embed : Emb)
    (item_embeds : List EmbeddedItem) (top_k : Int) :
    (findBestMatches cos_sim query_embed item_embeds top_k).length =
      jsSliceEnd item_embeds.length top_k := by
  simp only [findBestMatches]
  rw [length_jsSlice, length_sortBySimilarityDesc, length_withIndices,
    List.length_map]

/-- Concrete stand-in cosine for witnesses: reads the head of the item
vector, so distinct item embeddings get distinct scores. -/
def cosHead : Emb → Emb → ℚ := fun _ v => v.headD 0

/-- Concrete stand-in cosine for witnesses that forces ties. -/
def cosZero : Emb → Emb → ℚ := fun _ _ => 0

/-- Concrete stand-in text provider for witnesses. -/
def textEmb0 : String → Emb := fun _ => [1]

/-- Concrete stand-in image provider for witnesses. -/
def imageEmb0 : String → Emb := fun _ => [2]

/-- Concrete text-only embedded item for witnesses. -/
def itemTextW : EmbeddedItem :=
  { text_embed := some [5], image_embed := none, type := "text" }

/-- Concrete image-only embedded item for witnesses. -/
def itemImageW : EmbeddedItem :=
  { text_embed := none, image_embed := some [3], type := "image" }

/-- Concrete both-modality embedded item for witnesses. -/
def itemBothW : EmbeddedItem :=
  { text_embed := some [5], image_embed := some [7], type := "both" }

/-- Claim C1: the score of an embedded item against a query is
`cos_sim(query, textEmbedding)` when its kind is `text`,
`cos_sim(query, imageEmbedding)` when its kind is `image`, and the maximum
of the two when its kind is `both`. -/
theorem similarity_score_by_kind (cos_sim : Emb → Emb → ℚ) (query_embed te ie : Emb)
    (item : EmbeddedItem) :
    (item.type = "text" → item.text_embed = some te →
      itemSimilarity cos_sim query_embed item = cos_sim query_embed te) ∧
    (item.type = "image" → item.image_embed = some ie →
      itemSimilarity cos_sim query_embed item = cos_sim query_embed ie) ∧
    (item.type = "both" → item.text_embed = some te → item.image_embed = some ie →
      itemSimilarity cos_sim query_embed item =
        max (cos_sim query_embed te) (cos_sim query_embed ie)) := by
  refine ⟨?_, ?_, ?_⟩
  · intro h1 h2
    simp [itemSimilarity, h1, h2]
  · intro h1 h2
    simp [itemSimilarity, h1, h2]
  · intro h1 h2 h3
    simp [itemSimilarity, h1, h2, h3]

/-- Witness for C1 at a concrete both-modality item. -/
theorem similarity_score_by_kind_witness :
    itemBothW.type = "both" ∧ itemBothW.text_embed = some [5] ∧
    itemBothW.image_embed = some [7] ∧
    itemSimilarity cosHead [0] itemBothW = max (cosHead [0] [5]) (cosHead [0] [7]) :=
  ⟨rfl, rfl, rfl,
    (similarity_score_by_kind cosHead [0] [5] [7] itemBothW).2.2 rfl rfl rfl⟩

/-- Counterexample to Claim C2 as stated: called with `topK = 0`,
`findBestMatches` does not fail with `InvalidArgumentError` (the source has
no argument validation and no throw); it returns the empty array, a normal
value produced by `.slice(0, 0)`. -/
theorem topK_zero_no_error_counterexample :
    findBestMatches cosHead [0] [itemBothW] 0 = [] := rfl

/-- Claim C2 amended: a non-positive `topK` is not rejected.  `topK = 0`
yields the empty sequence, and a negative `topK` follows JavaScript
`slice` end-offset semantics: the result holds the first
`max(0, catalogLength + topK)` scored entries. -/
theorem findBestMatches_nonpositive_topK (cos_sim : Emb → Emb → ℚ)
    (query_embed : Emb) (item_embeds : List EmbeddedItem) (top_k : Int)
    (_hk : top_k ≤ 0) :
    (top_k = 0 → findBestMatches cos_sim query_embed item_embeds top_k = []) ∧
    (top_k < 0 → (findBestMatches cos_sim query_embed item_embeds top_k).length =
      ((item_embeds.length : Int) + top_k).toNat) := by
  constructor
  · intro h0
    have hlen := length_findBestMatches cos_sim query_embed item_embeds top_k
    rw [h0] at hlen ⊢
    have : jsSliceEnd item_embeds.length 0 = 0 := by
      unfold jsSliceEnd
      simp
    exact List.length_eq_zero.mp (by rw [hlen, this])
  · intro hneg
    rw [length_findBestMatches]
    unfold jsSliceEnd
    rw [if_pos hneg]

/-- Witness for the amended C2 at `topK = -1` over a two-item catalog. -/
theorem findBestMatches_nonpositive_topK_witness :
    ((-1 : Int) ≤ 0) ∧
    (findBestMatches cosHead [0] [itemTextW, itemBothW] (-1)).length =
      ((([itemTextW, itemBothW] : List EmbeddedItem).length : Int) + (-1)).toNat :=
  ⟨by decide,
   (findBestMatches_nonpositive_topK cosHead [0] [itemTextW, itemBothW] (-1)
      (by decide)).2 (by decide)⟩

/-- Claim C3, behaviour at the failing input: a catalog item with neither
`text` nor `image` does not raise `InvalidItemError`; the if/else-if chain
in `processSearchableItems` falls through and the item silently becomes
`undefined` (`none`) in the resolved array. -/
theorem processSearchableItems_missing_fields_undefined :
    processSearchableItems textEmb0 imageEmb0 [{ text := none, image := none }] =
      [none] := rfl

/-- Claim C4: the output of `findBestMatches` is sorted by non-increasing
score: every adjacent pair satisfies `score[i] >= score[i+1]`. -/
theorem rank_sorted_nonincreasing (cos_sim : Emb → Emb → ℚ) (query_embed : Emb)
    (item_embeds : List EmbeddedItem) (top_k : Int) (_hk : 0 < top_k) (i : Nat)
    (h : i + 1 < (findBestMatches cos_sim query_embed item_embeds top_k).length) :
    ((findBestMatches cos_sim query_embed item_embeds top_k).get
        ⟨i + 1, h⟩).similarity ≤
      ((findBestMatches cos_sim query_embed item_embeds top_k).get
        ⟨i, Nat.lt_of_succ_lt h⟩).similarity := by
  have hp := pairwise_findBestMatches cos_sim query_embed item_embeds top_k
  rw [List.pairwise_iff_get] at hp
  exact (hp ⟨i, Nat.lt_of_succ_lt h⟩ ⟨i + 1, h⟩ (Nat.lt_succ_self i)).1

/-- Witness for C4: adjacent scores 7 and 5 in a concrete two-item ranking. -/
theorem rank_sorted_nonincreasing_witness :
    (0 : Int) < 2 ∧
    ∃ h : 0 + 1 < (findBestMatches cosHead [0] [itemTextW, itemBothW] 2).length,
      ((findBestMatches cosHead [0] [itemTextW, itemBothW] 2).get
          ⟨0 + 1, h⟩).similarity ≤
        ((findBestMatches cosHead [0] [itemTextW, itemBothW] 2).get
          ⟨0, Nat.lt_of_succ_lt h⟩).similarity := by
  refine ⟨by decide, ?_⟩
  have hlen : 0 + 1 < (findBestMatches cosHead [0] [itemTextW, itemBothW] 2).length := by
    rw [length_findBestMatches]
    decide
  exact ⟨hlen,
    rank_sorted_nonincreasing cosHead [0] [itemTextW, itemBothW] 2 (by decide) 0 hlen⟩

/-- Claim C5: matches with exactly equal scores appear in the output in
original catalog-index order (stable sort): an equal-score pair earlier in
the output has the smaller catalog index. -/
theorem rank_stable_tie_break (cos_sim : Emb → Emb → ℚ) (query_embed : Emb)
    (item_embeds : List EmbeddedItem) (top_k : Int) (i j : Nat) (hij : i < j)
    (hj : j < (findBestMatches cos_sim query_embed item_embeds top_k).length)
    (heq : ((findBestMatches cos_sim query_embed item_embeds top_k).get
              ⟨i, lt_trans hij hj⟩).similarity =
           ((findBestMatches cos_sim query_embed item_embeds top_k).get
              ⟨j, hj⟩).similarity) :
    ((findBestMatches cos_sim query_embed item_embeds top_k).get
        ⟨i, lt_trans hij hj⟩).index <
      ((findBestMatches cos_sim query_embed item_embeds top_k).get
        ⟨j, hj⟩).index := by
  have hp := pairwise_findBestMatches cos_sim query_embed item_embeds top_k
  rw [List.pairwise_iff_get] at hp
  exact (hp ⟨i, lt_trans hij hj⟩ ⟨j, hj⟩ hij).2 (le_of_eq heq)

/-- Witness for C5: two items tied at score 0 come out in index order. -/
theorem rank_stable_tie_break_witness :
    (0 : Nat) < 1 ∧
    ∃ hj : 1 < (findBestMatches cosZero [0] [itemTextW, itemBothW] 2).length,
      ((findBestMatches cosZero [0] [itemTextW, itemBothW] 2).get
          ⟨0, lt_trans Nat.zero_lt_one hj⟩).similarity =
        ((findBestMatches cosZero [0] [itemTextW, itemBothW] 2).get
          ⟨1, hj⟩).similarity ∧
      ((findBestMatches cosZero [0] [itemTextW, itemBothW] 2).get
          ⟨0, lt_trans Nat.zero_lt_one hj⟩).index <
        ((findBestMatches cosZero [0] [itemTextW, itemBothW] 2).get
          ⟨1, hj⟩).index := by
  refine ⟨Nat.zero_lt_one, ?_⟩
  have hlen : 1 < (findBestMatches cosZero [0] [itemTextW, itemBothW] 2).length := by
    rw [length_findBestMatches]
    decide
  have heq : ((findBestMatches cosZero [0] [itemTextW, itemBothW] 2).get
      ⟨0, lt_trans Nat.zero_lt_one hlen⟩).similarity =
      ((findBestMatches cosZero [0] [itemTextW, itemBothW] 2).get
      ⟨1, hlen⟩).similarity := rfl
  exact ⟨hlen, heq,
    rank_stable_tie_break cosZero [0] [itemTextW, itemBothW] 2 0 1
      Nat.zero_lt_one hlen heq⟩

/-- Claim C6: for `topK > 0` the ranking returns exactly
`min(topK, catalog length)` matches, and on the empty catalog it returns
the empty sequence rather than an error. -/
theorem rank_length_min (cos_sim : Emb → Emb → ℚ) (query_embed : Emb)
    (item_embeds : List EmbeddedItem) (top_k : Int) (hk : 0 < top_k) :
    (findBestMatches cos_sim query_embed item_embeds top_k).length =
      min top_k.toNat item_embeds.length ∧
    findBestMatches cos_sim query_embed [] top_k = [] := by
  constructor
  · rw [length_findBestMatches]
    unfold jsSliceEnd
    rw [if_neg (not_lt.mpr (le_of_lt hk))]
  · have hlen := length_findBestMatches cos_sim query_embed [] top_k
    have h0 : jsSliceEnd (List.length ([] : List EmbeddedItem)) top_k = 0 := by
      unfold jsSliceEnd
      split
      · omega
      · simp
    exact List.length_eq_zero.mp (by rw [hlen, h0])

/-- Witness for C6 at `topK = 5` over a two-item catalog. -/
theorem rank_length_min_witness :
    (0 : Int) < 5 ∧
    (findBestMatches cosHead [0] [itemTextW, itemBothW] 5).length =
      min ((5 : Int).toNat) ([itemTextW, itemBothW] : List EmbeddedItem).length ∧
    findBestMatches cosHead [0] [] 5 = [] :=
  ⟨by decide,
   (rank_length_min cosHead [0] [itemTextW, itemBothW] 5 (by decide)).1,
   (rank_length_min cosHead [0] [itemTextW, itemBothW] 5 (by decide)).2⟩

/-- Catalog item whose two fields are both present, but whose text is the
empty string — present yet falsy under JavaScript truthiness. -/
def emptyTextItem : CatalogItem := { text := some (""), image := some ("pic.jpg") }

/-- Counterexample to Claim C7 as stated: an item with both fields present
but `text = ""` is embedded as kind `image` with no text embedding, because
`item.text && item.image` treats the empty string as absent; the claim
requires kind `both` with both embeddings computed. -/
theorem embed_both_present_counterexample :
    emptyTextItem.text.isSome = true ∧ emptyTextItem.image.isSome = true ∧
    processSearchableItems textEmb0 imageEmb0 [emptyTextItem] =
      [some { text_embed := none, image_embed := some (imageEmb0 ("pic.jpg")),
              type := "image" }] ∧
    (processSearchableItems textEmb0 imageEmb0 [emptyTextItem]).map
        (Option.map EmbeddedItem.type) ≠ [some ("both")] :=
  ⟨rfl, rfl, rfl, by decide⟩

/-- Claim C7 amended: `embedCatalog` preserves input order and index
correspondence (`result[i]` is the embedding of `items[i]`), and for every
item whose `text` and `imageRef` are both present and non-empty (JavaScript
truthiness), both embeddings are computed and the item is tagged
kind `both`. -/
theorem embedCatalog_order_and_both (embedText embedImage : String → Emb)
    (items : List CatalogItem) (i : Nat) (item : CatalogItem)
    (htext : truthy item.text = true) (himage : truthy item.image = true) :
    (processSearchableItems embedText embedImage items).length = items.length ∧
    (processSearchableItems embedText embedImage items)[i]? =
      (items[i]?).map (embedItem embedText embedImage) ∧
    embedItem embedText embedImage item =
      some { text_embed := some (embedText (item.text.getD (""))),
             image_embed := some (embedImage (item.image.getD (""))),
             type := "both" } := by
  refine ⟨?_, ?_, ?_⟩
  · simp [processSearchableItems]
  · simp [processSearchableItems]
  · simp [embedItem, htext, himage]

/-- Concrete both-modality catalog item for the C7 witness. -/
def bothItemW : CatalogItem := { text := some ("cat"), image := some ("cat.jpg") }

/-- Witness for the amended C7 at a concrete one-item catalog. -/
theorem embedCatalog_order_and_both_witness :
    truthy bothItemW.text = true ∧ truthy bothItemW.image = true ∧
    ((processSearchableItems textEmb0 imageEmb0 [bothItemW]).length =
        [bothItemW].length ∧
      (processSearchableItems textEmb0 imageEmb0 [bothItemW])[0]? =
        ([bothItemW][0]?).map (embedItem textEmb0 imageEmb0) ∧
      embedItem textEmb0 imageEmb0 bothItemW =
        some { text_embed := some (textEmb0 (bothItemW.text.getD (""))),
               image_embed := some (imageEmb0 (bothItemW.image.getD (""))),
               type := "both" }) :=
  ⟨by decide, by decide,
   embedCatalog_order_and_both textEmb0 imageEmb0 [bothItemW] 0 bothItemW
     (by decide) (by decide)⟩

/-- Claim C8: `findBestMatches` is deterministic — two calls with the same
query embedding, embedded catalog and `topK` yield identical ordered
output. -/
theorem rank_deterministic (cos_sim : Emb → Emb → ℚ) (q1 q2 : Emb)
    (c1 c2 : List EmbeddedItem) (k1 k2 : Int)
    (hq : q1 = q2) (hc : c1 = c2) (hk : k1 = k2) :
    findBestMatches cos_sim q1 c1 k1 = findBestMatches cos_sim q2 c2 k2 := by
  rw [hq, hc, hk]

/-- Witness for C8 at a concrete query, catalog and topK. -/
theorem rank_deterministic_witness :
    ([0] : Emb) = [0] ∧ ([itemTextW] : List EmbeddedItem) = [itemTextW] ∧
    (2 : Int) = 2 ∧
    findBestMatches cosHead [0] [itemTextW] 2 =
      findBestMatches cosHead [0] [itemTextW] 2 :=
  ⟨rfl, rfl, rfl,
   rank_deterministic cosHead [0] [0] [itemTextW] [itemTextW] 2 2 rfl rfl rfl⟩

/-- Claim C9: run as a transformer of its by-reference inputs,
`findBestMatches` returns the store unchanged — the catalog array, its
embedded items and the query embedding are exactly as before the call —
while producing the same matches as the pure function. -/
theorem rank_preserves_inputs (cos_sim : Emb → Emb → ℚ) (s : SearchState)
    (top_k : Int) :
    (findBestMatchesRun cos_sim s top_k).2 = s ∧
    (findBestMatchesRun cos_sim s top_k).1 =
      findBestMatches cos_sim s.query_embed s.item_embeds top_k :=
  ⟨rfl, rfl⟩

/-- Claim C10: called without an explicit `topK`, `findBestMatches` uses the
default parameter 3 and returns exactly `min(3, catalog length)` matches. -/
theorem rank_default_topK_three (cos_sim : Emb → Emb → ℚ) (query_embed : Emb)
    (item_embeds : List EmbeddedItem) :
    (findBestMatchesDefault cos_sim query_embed item_embeds).length =
      min 3 item_embeds.length := by
  rw [findBestMatchesDefault, length_findBestMatches]
  unfold jsSliceEnd
  rw [if_neg (by decide)]
  rfl

end JsClip
